import Mathlib

/-!
Shallow embedding of the EvoVendors backend (src/app.js): phone-number
verification state machine, session tokens, owner-scoped catalog CRUD for
products and services, and GridFS attachment storage.  MongoDB collections
are modelled as Lean lists; `findOne`/`updateOne`/`deleteOne` act on the
first matching element, as MongoDB does for single-document operations.
-/

namespace EvoVendors

/-- Verification status of a user row (the `status` field of a `users` document). -/
inductive Status where
  | pending
  | verified
deriving DecidableEq, Repr

/-- A document of the `users` collection.  `id` models the Mongo `_id`. -/
structure User where
  id : Nat
  phoneNumber : String
  username : String
  businessName : String
  name : String
  email : String
  status : Status
deriving DecidableEq, Repr

/-- Failure responses of the handlers, one constructor per distinct error reply. -/
inductive Err where
  | alreadyVerified
  | notPendingOrAlreadyVerified
  | verificationRejected (verdict : String)
  | callerNotVerified
  | notFound
  | updateFailed
  | forbidden
deriving DecidableEq, Repr

/-- Profile fields supplied in the signup request body. -/
structure ProfileFields where
  username : String
  businessName : String
  name : String
  email : String
deriving DecidableEq, Repr

/-- Successful signup replies: code sent for a fresh number, code re-sent for a pending one. -/
inductive SignupOutcome where
  | codeSent
  | codeResent
deriving DecidableEq, Repr

/-- Filter `{ phoneNumber }` used by the signup `findOne` and the upsert. -/
def userByPhoneQ (p : String) : User → Bool :=
  fun u => decide (u.phoneNumber = p)

/-- Filter `{ phoneNumber, status: 'verified' }` used by login and every authenticated handler. -/
def verifiedUserByPhoneQ (p : String) : User → Bool :=
  fun u => decide (u.phoneNumber = p ∧ u.status = Status.verified)

/-- Filter `{ phoneNumber, status: 'pending' }` used by the verify-signup update. -/
def pendingUserByPhoneQ (p : String) : User → Bool :=
  fun u => decide (u.phoneNumber = p ∧ u.status = Status.pending)

/-- Mongo `updateOne` on the `users` collection: rewrite the first document
matching `q` with `f`, returning the new collection and the `matchedCount`. -/
def updateOneUsers (q : User → Bool) (f : User → User) : List User → List User × Nat
  | [] => ([], 0)
  | u :: rest =>
    if q u then (f u :: rest, 1)
    else
      let r := updateOneUsers q f rest
      (u :: r.1, r.2)

/-- Effect of the signup `$set` document on a matched user row. -/
def signupProfileSet (p : String) (pf : ProfileFields) (u : User) : User :=
  { u with
    phoneNumber := p
    username := pf.username
    businessName := pf.businessName
    name := pf.name
    email := pf.email
    status := Status.pending }

/-- Mongo upsert `updateOne({phoneNumber}, {$set: ...}, {upsert: true})` of the
signup handler: update the first row with this phone number, or insert a fresh
pending row (with Mongo-generated id `freshId`) when none matches. -/
def upsertPendingUser (users : List User) (freshId : Nat) (p : String) (pf : ProfileFields) :
    List User :=
  let r := updateOneUsers (userByPhoneQ p) (signupProfileSet p pf) users
  if r.2 = 0 then
    users ++ [⟨freshId, p, pf.username, pf.businessName, pf.name, pf.email, Status.pending⟩]
  else r.1

instance exceptDecEq {ε α : Type} [DecidableEq ε] [DecidableEq α] :
    DecidableEq (Except ε α) := fun x y =>
  match x, y with
  | Except.ok a, Except.ok b =>
    if h : a = b then isTrue (by rw [h])
    else isFalse (fun hc => h (Except.ok.inj hc))
  | Except.error a, Except.error b =>
    if h : a = b then isTrue (by rw [h])
    else isFalse (fun hc => h (Except.error.inj hc))
  | Except.ok _, Except.error _ => isFalse (fun hc => Except.noConfusion hc)
  | Except.error _, Except.ok _ => isFalse (fun hc => Except.noConfusion hc)

/-- Result of the `POST /signup` handler: the reply, the resulting `users`
collection, and whether an OTP dispatch was requested from the provider. -/
structure SignupResult where
  resp : Except Err SignupOutcome
  users : List User
  otpDispatched : Bool
deriving DecidableEq, Repr

/-- Handler of `POST /signup` (src/app.js lines 62-92): look up the phone
number; if verified reply 400 without dispatching, if pending re-dispatch the
code, otherwise dispatch the code and upsert a pending row. -/
def signup (users : List User) (freshId : Nat) (p : String) (pf : ProfileFields) : SignupResult :=
  match users.find? (userByPhoneQ p) with
  | some existingUser =>
    if existingUser.status = Status.verified then
      ⟨Except.error Err.alreadyVerified, users, false⟩
    else
      ⟨Except.ok SignupOutcome.codeResent, users, true⟩
  | none =>
    ⟨Except.ok SignupOutcome.codeSent, upsertPendingUser users freshId p pf, true⟩

/-- Result of the `POST /verify-signup` handler. -/
structure ConfirmResult where
  resp : Except Err Unit
  users : List User
deriving DecidableEq, Repr

/-- Handler of `POST /verify-signup` (src/app.js lines 95-118): on an
`approved` OTP verdict, conditionally flip the `pending` row for this phone
number to `verified`; a zero `matchedCount` is reported as an error. -/
def confirmSignup (verdict : String) (users : List User) (p : String) : ConfirmResult :=
  if verdict = "approved" then
    let r := updateOneUsers (pendingUserByPhoneQ p)
      (fun u => { u with status := Status.verified }) users
    if r.2 = 0 then ⟨Except.error Err.notPendingOrAlreadyVerified, r.1⟩
    else ⟨Except.ok (), r.1⟩
  else ⟨Except.error (Err.verificationRejected verdict), users⟩

/-- A signed session token as produced by `jwt.sign({ phoneNumber }, secretKey,
{ expiresIn: '9h' })`: payload plus the key it was signed with. -/
structure SessionToken where
  phoneNumber : String
  iat : Nat
  exp : Nat
  key : String
deriving DecidableEq, Repr

/-- Model of `jwt.sign` at src/app.js line 149: a 9-hour expiry from issuance. -/
def signToken (secret : String) (p : String) (now : Nat) : SessionToken :=
  ⟨p, now, now + 9 * 3600, secret⟩

/-- Model of `jwt.verify` (src/app.js lines 48-52): the signature must match the
secret and the token must not be expired; returns the embedded phone number. -/
def verifyToken (secret : String) (tok : SessionToken) (now : Nat) : Option String :=
  if tok.key = secret ∧ now < tok.exp then some tok.phoneNumber else none

/-- Handler of `POST /verify-login` (src/app.js lines 139-160): on an approved
verdict and a verified user row, sign and return a session token. -/
def verifyLogin (secret : String) (verdict : String) (users : List User) (p : String)
    (now : Nat) : Except Err SessionToken :=
  if verdict = "approved" then
    match users.find? (verifiedUserByPhoneQ p) with
    | some _ => Except.ok (signToken secret p now)
    | none => Except.error Err.callerNotVerified
  else Except.error (Err.verificationRejected verdict)

/-- Handler of `GET /user/:id` (src/app.js lines 163-179): `findOne({_id,
phoneNumber: phoneNumberFromToken})`; a miss (absent id, or a row whose phone
number is not the token's) is answered with the single not-authorized reply,
modelled as `Err.forbidden`. -/
def getUserById (users : List User) (requestedId : Nat) (tokenPhone : String) :
    Except Err User :=
  match users.find? (fun u => decide (u.id = requestedId ∧ u.phoneNumber = tokenPhone)) with
  | some u => Except.ok u
  | none => Except.error Err.forbidden

/-- A document of the `products` collection.  `id` models `_id`; `userId` is
the owning user's id; `images`/`videos` hold GridFS file ids. -/
structure Product where
  id : Nat
  userId : Nat
  productName : String
  productDescription : String
  productCategory : String
  productSubcategory : String
  price : String
  stockAvailability : String
  productPolicies : String
  images : List Nat
  videos : List Nat
deriving DecidableEq, Repr

/-- A document of the `services` collection. -/
structure Service where
  id : Nat
  userId : Nat
  serviceName : String
  serviceCategory : String
  location : String
  description_ser : String
  lowestAmount : String
  highestAmount : String
  selectedServices : String
  selectedEventTypes : String
  images : List Nat
  videos : List Nat
deriving DecidableEq, Repr

/-- Shape of the Mongo filters applied to catalog collections: a record id,
optionally conjoined with an owner (`userId`) predicate. -/
structure CatalogQuery where
  qid : Nat
  qOwner : Option Nat
deriving DecidableEq, Repr

/-- Evaluation of a catalog filter on a product document. -/
def matchesProduct (q : CatalogQuery) (r : Product) : Bool :=
  decide (r.id = q.qid) &&
    (match q.qOwner with
     | none => true
     | some o => decide (r.userId = o))

/-- Evaluation of a catalog filter on a service document. -/
def matchesService (q : CatalogQuery) (r : Service) : Bool :=
  decide (r.id = q.qid) &&
    (match q.qOwner with
     | none => true
     | some o => decide (r.userId = o))

/-- Filter of the product `updateOne` write at src/app.js lines 363-364:
`{ _id: new ObjectId(id) }` — the record id only. -/
def productUpdateWriteQuery (pid : Nat) : CatalogQuery :=
  ⟨pid, none⟩

/-- Filter of the product `deleteOne` write at src/app.js line 307:
`{ _id: new ObjectId(id), userId: user._id }`. -/
def productDeleteWriteQuery (pid : Nat) (uid : Nat) : CatalogQuery :=
  ⟨pid, some uid⟩

/-- Filter of the service `updateOne` write at src/app.js lines 541-542:
`{ _id: new ObjectId(id) }` — the record id only. -/
def serviceUpdateWriteQuery (pid : Nat) : CatalogQuery :=
  ⟨pid, none⟩

/-- Filter of the service `deleteOne` write at src/app.js line 571:
`{ _id: new ObjectId(id), userId: user._id }`. -/
def serviceDeleteWriteQuery (pid : Nat) (uid : Nat) : CatalogQuery :=
  ⟨pid, some uid⟩

/-- Mongo `updateOne` with a full `$set` document on `products`: replace the
first document matching `q` by `newDoc`, returning the new collection, the
`matchedCount`, and the `modifiedCount` (zero when the replacement document
equals the matched one). -/
def updateOneProducts (q : CatalogQuery) (newDoc : Product) :
    List Product → List Product × Nat × Nat
  | [] => ([], 0, 0)
  | r :: rest =>
    if matchesProduct q r then
      (newDoc :: rest, 1, if newDoc = r then 0 else 1)
    else
      let t := updateOneProducts q newDoc rest
      (r :: t.1, t.2.1, t.2.2)

/-- Mongo `updateOne` with a full `$set` document on `services`. -/
def updateOneServices (q : CatalogQuery) (newDoc : Service) :
    List Service → List Service × Nat × Nat
  | [] => ([], 0, 0)
  | r :: rest =>
    if matchesService q r then
      (newDoc :: rest, 1, if newDoc = r then 0 else 1)
    else
      let t := updateOneServices q newDoc rest
      (r :: t.1, t.2.1, t.2.2)

/-- Mongo `deleteOne` on `products`: remove the first document matching `q`,
returning the new collection and the `deletedCount`. -/
def deleteOneProducts (q : CatalogQuery) : List Product → List Product × Nat
  | [] => ([], 0)
  | r :: rest =>
    if matchesProduct q r then (rest, 1)
    else
      let t := deleteOneProducts q rest
      (r :: t.1, t.2)

/-- Mongo `deleteOne` on `services`. -/
def deleteOneServices (q : CatalogQuery) : List Service → List Service × Nat
  | [] => ([], 0)
  | r :: rest =>
    if matchesService q r then (rest, 1)
    else
      let t := deleteOneServices q rest
      (r :: t.1, t.2)

/-- Lookup portion of `GET /vendor/products/:id` (src/app.js line 281):
`findOne({_id, userId})`, answering the one 404 reply on a miss whether the id
is absent or the record is owned by someone else. -/
def getProductById (store : List Product) (pid : Nat) (uid : Nat) : Except Err Product :=
  match store.find? (matchesProduct ⟨pid, some uid⟩) with
  | some r => Except.ok r
  | none => Except.error Err.notFound

/-- Lookup portion of `GET /vendor/services/:id` (src/app.js line 483). -/
def getServiceById (store : List Service) (pid : Nat) (uid : Nat) : Except Err Service :=
  match store.find? (matchesService ⟨pid, some uid⟩) with
  | some r => Except.ok r
  | none => Except.error Err.notFound

/-- Handler of `GET /vendor/products` (src/app.js lines 247-266): resolve the
verified caller, then return every product with the caller's `userId` — an
empty match yields an empty 200 list. -/
def listProducts (users : List User) (store : List Product) (p : String) :
    Except Err (List Product) :=
  match users.find? (verifiedUserByPhoneQ p) with
  | none => Except.error Err.callerNotVerified
  | some u => Except.ok (store.filter (fun r => decide (r.userId = u.id)))

/-- Handler of `GET /vendor/services` (src/app.js lines 446-469): same lookup,
but a zero-length result is answered with the 404 `No services found` reply. -/
def listServices (users : List User) (store : List Service) (p : String) :
    Except Err (List Service) :=
  match users.find? (verifiedUserByPhoneQ p) with
  | none => Except.error Err.callerNotVerified
  | some u =>
    let services := store.filter (fun r => decide (r.userId = u.id))
    if services.length = 0 then Except.error Err.notFound
    else Except.ok services

/-- Request body of `PUT /vendor/products/:id`: each field optional. -/
structure ProductPatch where
  productName : Option String
  productDescription : Option String
  productCategory : Option String
  productSubcategory : Option String
  price : Option String
  stockAvailability : Option String
  productPolicies : Option String
  images : Option (List Nat)
  videos : Option (List Nat)
deriving DecidableEq, Repr

/-- The spread-merge at src/app.js lines 350-361: fields present in the request
override the stored document, absent fields keep the stored values. -/
def mergeProduct (r : Product) (patch : ProductPatch) : Product :=
  { r with
    productName := patch.productName.getD r.productName
    productDescription := patch.productDescription.getD r.productDescription
    productCategory := patch.productCategory.getD r.productCategory
    productSubcategory := patch.productSubcategory.getD r.productSubcategory
    price := patch.price.getD r.price
    stockAvailability := patch.stockAvailability.getD r.stockAvailability
    productPolicies := patch.productPolicies.getD r.productPolicies
    images := patch.images.getD r.images
    videos := patch.videos.getD r.videos }

/-- Request body of `PUT /vendor/services/:id`. -/
structure ServicePatch where
  serviceName : Option String
  serviceCategory : Option String
  location : Option String
  description_ser : Option String
  lowestAmount : Option String
  highestAmount : Option String
  selectedServices : Option String
  selectedEventTypes : Option String
  images : Option (List Nat)
  videos : Option (List Nat)
deriving DecidableEq, Repr

/-- The spread-merge at src/app.js lines 527-539. -/
def mergeService (r : Service) (patch : ServicePatch) : Service :=
  { r with
    serviceName := patch.serviceName.getD r.serviceName
    serviceCategory := patch.serviceCategory.getD r.serviceCategory
    location := patch.location.getD r.location
    description_ser := patch.description_ser.getD r.description_ser
    lowestAmount := patch.lowestAmount.getD r.lowestAmount
    highestAmount := patch.highestAmount.getD r.highestAmount
    selectedServices := patch.selectedServices.getD r.selectedServices
    selectedEventTypes := patch.selectedEventTypes.getD r.selectedEventTypes
    images := patch.images.getD r.images
    videos := patch.videos.getD r.videos }

/-- Handler of `PUT /vendor/products/:id` (src/app.js lines 319-377): resolve
the verified caller, fetch the product by id and owner, merge the patch, then
`updateOne` keyed on the id alone; a zero `modifiedCount` is the 500
`Product update failed` reply. -/
def putProduct (users : List User) (store : List Product) (p : String) (pid : Nat)
    (patch : ProductPatch) : Except Err Unit × List Product :=
  match users.find? (verifiedUserByPhoneQ p) with
  | none => (Except.error Err.callerNotVerified, store)
  | some u =>
    match store.find? (matchesProduct ⟨pid, some u.id⟩) with
    | none => (Except.error Err.notFound, store)
    | some product =>
      let t := updateOneProducts (productUpdateWriteQuery pid) (mergeProduct product patch) store
      if t.2.2 = 0 then (Except.error Err.updateFailed, t.1)
      else (Except.ok (), t.1)

/-- Handler of `PUT /vendor/services/:id` (src/app.js lines 495-555). -/
def putService (users : List User) (store : List Service) (p : String) (pid : Nat)
    (patch : ServicePatch) : Except Err Unit × List Service :=
  match users.find? (verifiedUserByPhoneQ p) with
  | none => (Except.error Err.callerNotVerified, store)
  | some u =>
    match store.find? (matchesService ⟨pid, some u.id⟩) with
    | none => (Except.error Err.notFound, store)
    | some service =>
      let t := updateOneServices (serviceUpdateWriteQuery pid) (mergeService service patch) store
      if t.2.2 = 0 then (Except.error Err.updateFailed, t.1)
      else (Except.ok (), t.1)

/-- Handler of `DELETE /vendor/products/:id` (src/app.js lines 293-318):
`deleteOne({_id, userId})`; a zero `deletedCount` is the 404 reply. -/
def deleteProduct (users : List User) (store : List Product) (p : String) (pid : Nat) :
    Except Err Unit × List Product :=
  match users.find? (verifiedUserByPhoneQ p) with
  | none => (Except.error Err.callerNotVerified, store)
  | some u =>
    let t := deleteOneProducts (productDeleteWriteQuery pid u.id) store
    if t.2 = 0 then (Except.error Err.notFound, t.1)
    else (Except.ok (), t.1)

/-- Handler of `DELETE /vendor/services/:id` (src/app.js lines 558-582). -/
def deleteService (users : List User) (store : List Service) (p : String) (pid : Nat) :
    Except Err Unit × List Service :=
  match users.find? (verifiedUserByPhoneQ p) with
  | none => (Except.error Err.callerNotVerified, store)
  | some u =>
    let t := deleteOneServices (serviceDeleteWriteQuery pid u.id) store
    if t.2 = 0 then (Except.error Err.notFound, t.1)
    else (Except.ok (), t.1)

/-- A file of a multipart upload as multer presents it: declared name, declared
content type, and the in-memory byte buffer. -/
structure UploadFile where
  originalname : String
  mimetype : String
  buffer : List Nat
deriving DecidableEq, Repr

/-- An object stored in the GridFS bucket: file id, filename, content type,
owner metadata, and the bytes written. -/
structure StoredBlob where
  id : Nat
  filename : String
  contentType : String
  ownerUserId : Nat
  bytes : List Nat
deriving DecidableEq, Repr

/-- Result of the upload loop: the grown bucket, the next fresh file id, and
the two handle lists collected for the catalog record. -/
structure BatchResult where
  blobs : List StoredBlob
  nextId : Nat
  imageFileIds : List Nat
  videoFileIds : List Nat
deriving DecidableEq, Repr

/-- Model of the JavaScript `String.prototype.startsWith` used to classify a
declared content type: prefix test on the character sequence. -/
def strStartsWith (s pre : String) : Bool :=
  List.isPrefixOf pre.data s.data

/-- The upload loop of the product and service create handlers (src/app.js
lines 208-221 and 407-420): every file is written to the bucket via
`openUploadStream` + `end`; the fresh id is appended to `imageFileIds` when the
declared type starts with `image/`, to `videoFileIds` when it starts with
`video/`, and to neither list otherwise. -/
def storeBatch (blobs : List StoredBlob) (nid : Nat) (files : List UploadFile)
    (owner : Nat) : BatchResult :=
  match files with
  | [] => ⟨blobs, nid, [], []⟩
  | f :: rest =>
    let r := storeBatch (blobs ++ [⟨nid, f.originalname, f.mimetype, owner, f.buffer⟩])
      (nid + 1) rest owner
    if strStartsWith f.mimetype "image/" then
      ⟨r.blobs, r.nextId, nid :: r.imageFileIds, r.videoFileIds⟩
    else if strStartsWith f.mimetype "video/" then
      ⟨r.blobs, r.nextId, r.imageFileIds, nid :: r.videoFileIds⟩
    else
      ⟨r.blobs, r.nextId, r.imageFileIds, r.videoFileIds⟩

/-- Handler of `GET /image/:fileId` (src/app.js lines 586-613): stream the
bucket object with this id; an unknown id raises the stream error handled as a
404.  No content type is checked or set. -/
def getImage (blobs : List StoredBlob) (fileId : Nat) : Except Err (List Nat) :=
  match blobs.find? (fun b => decide (b.id = fileId)) with
  | some b => Except.ok b.bytes
  | none => Except.error Err.notFound

/-- Reply of the video endpoint: the content type set on the response and the
streamed bytes. -/
structure VideoResponse where
  contentType : String
  bytes : List Nat
deriving DecidableEq, Repr

/-- Handler of `GET /video/:fileId` (src/app.js lines 616-646): identical
lookup, with `Content-Type: video/mp4` set unconditionally on the response. -/
def getVideo (blobs : List StoredBlob) (fileId : Nat) : Except Err VideoResponse :=
  match blobs.find? (fun b => decide (b.id = fileId)) with
  | some b => Except.ok ⟨"video/mp4", b.bytes⟩
  | none => Except.error Err.notFound

/-! Helper lemmas about `find?`, `countP`, and the embedded Mongo operations. -/

theorem countP_le_one_tail {α : Type} (p : α → Bool) (x : α) (xs : List α)
    (hu : (x :: xs).countP p ≤ 1) : xs.countP p ≤ 1 := by
  rw [List.countP_cons] at hu
  omega

theorem countP_head_true_tail_zero {α : Type} (p : α → Bool) (x : α) (xs : List α)
    (hx : p x = true) (hu : (x :: xs).countP p ≤ 1) : xs.countP p = 0 := by
  have h1 : (x :: xs).countP p = xs.countP p + 1 := by
    simp [List.countP_cons, hx]
  omega

theorem find?_eq_some_of_unique {α : Type} (p : α → Bool) (a : α) (l : List α)
    (ha : a ∈ l) (hpa : p a = true) (hu : l.countP p ≤ 1) : l.find? p = some a := by
  induction l with
  | nil => cases ha
  | cons x xs ih =>
    cases hx : p x with
    | true =>
      rw [List.find?_cons_of_pos _ hx]
      have hxs : xs.countP p = 0 := countP_head_true_tail_zero p x xs hx hu
      rcases List.mem_cons.mp ha with h | hmem
      · rw [h]
      · exact absurd hpa (by simpa using List.countP_eq_zero.mp hxs a hmem)
    | false =>
      rw [List.find?_cons_of_neg _ (by simp [hx])]
      have hax : a ≠ x := by
        intro h
        rw [h, hx] at hpa
        cases hpa
      have hmem : a ∈ xs := by
        rcases List.mem_cons.mp ha with h | h
        · exact absurd h hax
        · exact h
      exact ih hmem (countP_le_one_tail p x xs hu)

theorem eq_of_mem_countP_le_one {α : Type} (p : α → Bool) (l : List α)
    (hu : l.countP p ≤ 1) (a b : α) (ha : a ∈ l) (hb : b ∈ l)
    (hpa : p a = true) (hpb : p b = true) : a = b := by
  have h1 := find?_eq_some_of_unique p a l ha hpa hu
  have h2 := find?_eq_some_of_unique p b l hb hpb hu
  rw [h1] at h2
  exact Option.some.inj h2

theorem find?_split {α : Type} (p : α → Bool) (l : List α) (a : α)
    (h : l.find? p = some a) :
    ∃ l1 l2, l = l1 ++ a :: l2 ∧ ∀ x ∈ l1, p x = false := by
  induction l with
  | nil => cases h
  | cons x xs ih =>
    cases hx : p x with
    | true =>
      rw [List.find?_cons_of_pos _ hx] at h
      have hxa : x = a := Option.some.inj h
      subst hxa
      exact ⟨[], xs, by simp, by intro y hy; cases hy⟩
    | false =>
      rw [List.find?_cons_of_neg _ (by simp [hx])] at h
      obtain ⟨l1, l2, heq, hall⟩ := ih h
      refine ⟨x :: l1, l2, by rw [heq]; rfl, ?_⟩
      intro y hy
      rcases List.mem_cons.mp hy with h1 | h1
      · rw [h1]; exact hx
      · exact hall y h1

theorem updateOneUsers_of_forall_false (q : User → Bool) (f : User → User)
    (l : List User) (h : ∀ u ∈ l, q u = false) : updateOneUsers q f l = (l, 0) := by
  induction l with
  | nil => rfl
  | cons x xs ih =>
    have hx : q x = false := h x (List.mem_cons_self x xs)
    have ht := ih (fun u hu => h u (List.mem_cons_of_mem x hu))
    simp [updateOneUsers, hx, ht]

theorem updateOneUsers_append (q : User → Bool) (f : User → User)
    (l1 : List User) (x : User) (l2 : List User)
    (h1 : ∀ u ∈ l1, q u = false) (hx : q x = true) :
    updateOneUsers q f (l1 ++ x :: l2) = (l1 ++ f x :: l2, 1) := by
  induction l1 with
  | nil => simp [updateOneUsers, hx]
  | cons y ys ih =>
    have hy : q y = false := h1 y (List.mem_cons_self y ys)
    have ht := ih (fun u hu => h1 u (List.mem_cons_of_mem y hu))
    simp [updateOneUsers, hy, ht]

theorem mem_updateOneUsers (q : User → Bool) (f : User → User) (l : List User)
    (u : User) (hu : u ∈ l) (hq : q u = false) : u ∈ (updateOneUsers q f l).1 := by
  induction l with
  | nil => cases hu
  | cons x xs ih =>
    by_cases hx : q x = true
    · have hux : u ≠ x := by
        intro h
        rw [h, hx] at hq
        cases hq
      have hmem : u ∈ xs := by
        rcases List.mem_cons.mp hu with h | h
        · exact absurd h hux
        · exact h
      simp only [updateOneUsers, hx, if_true]
      exact List.mem_cons_of_mem _ hmem
    · have hx2 : q x = false := by simpa using hx
      rcases List.mem_cons.mp hu with h | h
      · rw [h]
        simp [updateOneUsers, hx2]
      · simp only [updateOneUsers, hx2, Bool.false_eq_true, if_false]
        exact List.mem_cons_of_mem _ (ih h)

theorem updateOneUsers_matched_split (q : User → Bool) (f : User → User)
    (l : List User) (h : (updateOneUsers q f l).2 ≠ 0) :
    ∃ l1 x l2, l = l1 ++ x :: l2 ∧ (∀ y ∈ l1, q y = false) ∧ q x = true ∧
      (updateOneUsers q f l).1 = l1 ++ f x :: l2 := by
  induction l with
  | nil => exact absurd rfl h
  | cons x xs ih =>
    by_cases hx : q x = true
    · refine ⟨[], x, xs, by simp, ?_, hx, ?_⟩
      · intro y hy
        cases hy
      · simp [updateOneUsers, hx]
    · have hx2 : q x = false := by simpa using hx
      have h2 : (updateOneUsers q f xs).2 ≠ 0 := by
        intro h0
        apply h
        simp [updateOneUsers, hx2, h0]
      obtain ⟨l1, y, l2, heq, hall, hqy, hres⟩ := ih h2
      refine ⟨x :: l1, y, l2, by rw [heq]; simp, ?_, hqy, ?_⟩
      · intro z hz
        rcases List.mem_cons.mp hz with h1 | h1
        · rw [h1]
          exact hx2
        · exact hall z h1
      · simp [updateOneUsers, hx2, hres]

theorem updateOneProducts_append (q : CatalogQuery) (d : Product)
    (l1 : List Product) (x : Product) (l2 : List Product)
    (h1 : ∀ r ∈ l1, matchesProduct q r = false) (hx : matchesProduct q x = true) :
    updateOneProducts q d (l1 ++ x :: l2) =
      (l1 ++ d :: l2, 1, if d = x then 0 else 1) := by
  induction l1 with
  | nil => simp [updateOneProducts, hx]
  | cons y ys ih =>
    have hy : matchesProduct q y = false := h1 y (List.mem_cons_self y ys)
    have ht := ih (fun r hr => h1 r (List.mem_cons_of_mem y hr))
    simp [updateOneProducts, hy, ht]

theorem deleteOneProducts_of_forall_false (q : CatalogQuery) (l : List Product)
    (h : ∀ r ∈ l, matchesProduct q r = false) : deleteOneProducts q l = (l, 0) := by
  induction l with
  | nil => rfl
  | cons x xs ih =>
    have hx : matchesProduct q x = false := h x (List.mem_cons_self x xs)
    have ht := ih (fun r hr => h r (List.mem_cons_of_mem x hr))
    simp [deleteOneProducts, hx, ht]

theorem deleteOneServices_of_forall_false (q : CatalogQuery) (l : List Service)
    (h : ∀ r ∈ l, matchesService q r = false) : deleteOneServices q l = (l, 0) := by
  induction l with
  | nil => rfl
  | cons x xs ih =>
    have hx : matchesService q x = false := h x (List.mem_cons_self x xs)
    have ht := ih (fun r hr => h r (List.mem_cons_of_mem x hr))
    simp [deleteOneServices, hx, ht]

theorem storeBatch_blobs_extend (files : List UploadFile) (blobs : List StoredBlob)
    (nid : Nat) (owner : Nat) :
    ∃ t, (storeBatch blobs nid files owner).blobs = blobs ++ t := by
  induction files generalizing blobs nid with
  | nil => exact ⟨[], by simp [storeBatch]⟩
  | cons f rest ih =>
    obtain ⟨t, ht⟩ := ih (blobs ++ [⟨nid, f.originalname, f.mimetype, owner, f.buffer⟩]) (nid + 1)
    refine ⟨⟨nid, f.originalname, f.mimetype, owner, f.buffer⟩ :: t, ?_⟩
    by_cases h1 : strStartsWith f.mimetype "image/" = true
    · simp [storeBatch, h1, ht]
    · by_cases h2 : strStartsWith f.mimetype "video/" = true
      · simp [storeBatch, h1, h2, ht]
      · simp [storeBatch, h1, h2, ht]

theorem storeBatch_handle_ids_ge (files : List UploadFile) (blobs : List StoredBlob)
    (nid : Nat) (owner : Nat) (i : Nat) :
    (i ∈ (storeBatch blobs nid files owner).imageFileIds → nid ≤ i) ∧
      (i ∈ (storeBatch blobs nid files owner).videoFileIds → nid ≤ i) := by
  induction files generalizing blobs nid with
  | nil =>
    constructor
    · intro h
      simp [storeBatch] at h
    · intro h
      simp [storeBatch] at h
  | cons f rest ih =>
    have hrec := ih (blobs ++ [⟨nid, f.originalname, f.mimetype, owner, f.buffer⟩]) (nid + 1)
    by_cases h1 : strStartsWith f.mimetype "image/" = true
    · constructor
      · intro h
        simp only [storeBatch, h1, if_true] at h
        rcases List.mem_cons.mp h with h | h
        · omega
        · have := hrec.1 h
          omega
      · intro h
        simp only [storeBatch, h1, if_true] at h
        have := hrec.2 h
        omega
    · by_cases h2 : strStartsWith f.mimetype "video/" = true
      · constructor
        · intro h
          simp only [storeBatch, h1, h2, Bool.false_eq_true, if_false, if_true] at h
          have := hrec.1 h
          omega
        · intro h
          simp only [storeBatch, h1, h2, Bool.false_eq_true, if_false, if_true] at h
          rcases List.mem_cons.mp h with h | h
          · omega
          · have := hrec.2 h
            omega
      · constructor
        · intro h
          simp only [storeBatch, h1, h2, Bool.false_eq_true, if_false] at h
          have := hrec.1 h
          omega
        · intro h
          simp only [storeBatch, h1, h2, Bool.false_eq_true, if_false] at h
          have := hrec.2 h
          omega

/-! Claim theorems. -/

/-- C6: issuing a session token and verifying it before the expiry returns the
original phone number; verifying at or after the expiry fails; the expiry is
fixed at nine hours from issuance, and the verify-login handler issues exactly
such a token. -/
theorem token_roundtrip_nine_hour_expiry (secret p : String) (t0 t : Nat) :
    ((signToken secret p t0).exp = t0 + 9 * 3600) ∧
    (t < t0 + 9 * 3600 → verifyToken secret (signToken secret p t0) t = some p) ∧
    (t0 + 9 * 3600 ≤ t → verifyToken secret (signToken secret p t0) t = none) ∧
    (∀ users u, users.find? (verifiedUserByPhoneQ p) = some u →
      verifyLogin secret "approved" users p t0 = Except.ok (signToken secret p t0)) := by
  refine ⟨rfl, ?_, ?_, ?_⟩
  · intro h
    simp [verifyToken, signToken, h]
  · intro h
    simp [verifyToken, signToken]
    omega
  · intro users u h
    simp [verifyLogin, h]

theorem token_roundtrip_nine_hour_expiry_witness :
    verifyToken "k" (signToken "k" "+15550001" 100) 200 = some "+15550001" ∧
    verifyToken "k" (signToken "k" "+15550001" 100) (100 + 9 * 3600) = none ∧
    verifyLogin "k" "approved" [⟨1, "+15550001", "a", "b", "c", "d", Status.verified⟩]
      "+15550001" 100 = Except.ok (signToken "k" "+15550001" 100) :=
  ⟨(token_roundtrip_nine_hour_expiry "k" "+15550001" 100 200).2.1 (by omega),
   (token_roundtrip_nine_hour_expiry "k" "+15550001" 100 (100 + 9 * 3600)).2.2.1 (by omega),
   (token_roundtrip_nine_hour_expiry "k" "+15550001" 100 0).2.2.2
     [⟨1, "+15550001", "a", "b", "c", "d", Status.verified⟩]
     ⟨1, "+15550001", "a", "b", "c", "d", Status.verified⟩ (by decide)⟩

/-- C10: the public streaming endpoints do not check the stored media kind:
every stored handle streams its bytes through both the image and the video
endpoint, and the video endpoint sets content type video/mp4 regardless of the
stored content type. -/
theorem media_endpoints_ignore_stored_kind
    (blobs : List StoredBlob) (b : StoredBlob) (hb : b ∈ blobs)
    (hu : blobs.countP (fun x => decide (x.id = b.id)) ≤ 1) :
    getImage blobs b.id = Except.ok b.bytes ∧
    getVideo blobs b.id = Except.ok ⟨"video/mp4", b.bytes⟩ := by
  have hf := find?_eq_some_of_unique (fun x => decide (x.id = b.id)) b blobs hb
    (by simp) hu
  constructor
  · simp [getImage, hf]
  · simp [getVideo, hf]

theorem media_endpoints_ignore_stored_kind_witness :
    getVideo [⟨5, "a.png", "image/png", 7, [1, 2]⟩] 5
      = Except.ok ⟨"video/mp4", [1, 2]⟩ ∧
    getImage [⟨6, "b.mp4", "video/mp4", 7, [3]⟩] 6 = Except.ok [3] :=
  ⟨(media_endpoints_ignore_stored_kind [⟨5, "a.png", "image/png", 7, [1, 2]⟩]
      ⟨5, "a.png", "image/png", 7, [1, 2]⟩ (by simp) (by simp)).2,
   (media_endpoints_ignore_stored_kind [⟨6, "b.mp4", "video/mp4", 7, [3]⟩]
      ⟨6, "b.mp4", "video/mp4", 7, [3]⟩ (by simp) (by simp)).1⟩

/-- C8: on an empty match for a verified owner, the product listing succeeds
with an empty list, while the service listing fails with the NotFound-style
`No services found` reply. -/
theorem list_empty_result_asymmetry
    (users : List User) (prods : List Product) (servs : List Service) (p : String)
    (u : User) (hu : users.find? (verifiedUserByPhoneQ p) = some u)
    (hp : ∀ r ∈ prods, r.userId ≠ u.id)
    (hs : ∀ r ∈ servs, r.userId ≠ u.id) :
    listProducts users prods p = Except.ok [] ∧
    listServices users servs p = Except.error Err.notFound := by
  have hfp : prods.filter (fun r => decide (r.userId = u.id)) = [] := by
    rw [List.filter_eq_nil_iff]
    intro r hr
    simp [hp r hr]
  have hfs : servs.filter (fun r => decide (r.userId = u.id)) = [] := by
    rw [List.filter_eq_nil_iff]
    intro r hr
    simp [hs r hr]
  constructor
  · simp [listProducts, hu, hfp]
  · simp [listServices, hu, hfs]

theorem list_empty_result_asymmetry_witness :
    listProducts [⟨2, "+15550002", "a", "b", "c", "d", Status.verified⟩] [] "+15550002"
      = Except.ok [] ∧
    listServices [⟨2, "+15550002", "a", "b", "c", "d", Status.verified⟩] [] "+15550002"
      = Except.error Err.notFound :=
  list_empty_result_asymmetry [⟨2, "+15550002", "a", "b", "c", "d", Status.verified⟩]
    [] [] "+15550002" ⟨2, "+15550002", "a", "b", "c", "d", Status.verified⟩
    (by decide) (by intro r hr; cases hr) (by intro r hr; cases hr)

/-- C4: for both catalog kinds, getById answers the identical NotFound error
when the id is absent and when the id exists with a different owner, and
returns the record when it exists and is owned by the caller; the two failure
cases produce the same reply, so the caller cannot tell them apart. -/
theorem getById_notFound_indistinguishable
    (prods : List Product) (servs : List Service) (pid uid sid : Nat)
    (hpu : prods.countP (fun r => decide (r.id = pid)) ≤ 1)
    (hsu : servs.countP (fun r => decide (r.id = sid)) ≤ 1) :
    (getProductById prods pid uid = Except.error Err.notFound ↔
      ∀ r ∈ prods, ¬(r.id = pid ∧ r.userId = uid)) ∧
    ((∀ r ∈ prods, r.id ≠ pid) →
      getProductById prods pid uid = Except.error Err.notFound) ∧
    ((∃ r ∈ prods, r.id = pid ∧ r.userId ≠ uid) →
      getProductById prods pid uid = Except.error Err.notFound) ∧
    (∀ r ∈ prods, r.id = pid → r.userId = uid →
      getProductById prods pid uid = Except.ok r) ∧
    (getServiceById servs sid uid = Except.error Err.notFound ↔
      ∀ r ∈ servs, ¬(r.id = sid ∧ r.userId = uid)) ∧
    ((∀ r ∈ servs, r.id ≠ sid) →
      getServiceById servs sid uid = Except.error Err.notFound) ∧
    ((∃ r ∈ servs, r.id = sid ∧ r.userId ≠ uid) →
      getServiceById servs sid uid = Except.error Err.notFound) ∧
    (∀ r ∈ servs, r.id = sid → r.userId = uid →
      getServiceById servs sid uid = Except.ok r) := by
  have hpq : ∀ r : Product, matchesProduct ⟨pid, some uid⟩ r = true ↔
      (r.id = pid ∧ r.userId = uid) := by
    intro r
    simp [matchesProduct]
  have hsq : ∀ r : Service, matchesService ⟨sid, some uid⟩ r = true ↔
      (r.id = sid ∧ r.userId = uid) := by
    intro r
    simp [matchesService]
  have hperr : ∀ (h : ∀ r ∈ prods, ¬(r.id = pid ∧ r.userId = uid)),
      getProductById prods pid uid = Except.error Err.notFound := by
    intro h
    have hnone : prods.find? (matchesProduct ⟨pid, some uid⟩) = none :=
      List.find?_eq_none.mpr (fun r hr hq => h r hr ((hpq r).mp hq))
    simp [getProductById, hnone]
  have hserr : ∀ (h : ∀ r ∈ servs, ¬(r.id = sid ∧ r.userId = uid)),
      getServiceById servs sid uid = Except.error Err.notFound := by
    intro h
    have hnone : servs.find? (matchesService ⟨sid, some uid⟩) = none :=
      List.find?_eq_none.mpr (fun r hr hq => h r hr ((hsq r).mp hq))
    simp [getServiceById, hnone]
  refine ⟨⟨?_, hperr⟩, ?_, ?_, ?_, ⟨?_, hserr⟩, ?_, ?_, ?_⟩
  · intro herr r hr hq
    rcases hfind : prods.find? (matchesProduct ⟨pid, some uid⟩) with _ | r0
    · exact (List.find?_eq_none.mp hfind r hr) ((hpq r).mpr hq)
    · simp [getProductById, hfind] at herr
  · intro h
    exact hperr (fun r hr hq => (h r hr) hq.1)
  · rintro ⟨r, hr, hid, hown⟩
    refine hperr (fun r2 hr2 hq2 => ?_)
    have : r = r2 := eq_of_mem_countP_le_one (fun x => decide (x.id = pid)) prods hpu
      r r2 hr hr2 (by simp [hid]) (by simp [hq2.1])
    exact hown (by rw [this]; exact hq2.2)
  · intro r hr hid hown
    have hf := find?_eq_some_of_unique (matchesProduct ⟨pid, some uid⟩) r prods hr
      ((hpq r).mpr ⟨hid, hown⟩) ?_
    · simp [getProductById, hf]
    · refine le_trans (List.countP_mono_left ?_) hpu
      intro r2 _ hq2
      simp [(hpq r2).mp hq2]
  · intro herr r hr hq
    rcases hfind : servs.find? (matchesService ⟨sid, some uid⟩) with _ | r0
    · exact (List.find?_eq_none.mp hfind r hr) ((hsq r).mpr hq)
    · simp [getServiceById, hfind] at herr
  · intro h
    exact hserr (fun r hr hq => (h r hr) hq.1)
  · rintro ⟨r, hr, hid, hown⟩
    refine hserr (fun r2 hr2 hq2 => ?_)
    have : r = r2 := eq_of_mem_countP_le_one (fun x => decide (x.id = sid)) servs hsu
      r r2 hr hr2 (by simp [hid]) (by simp [hq2.1])
    exact hown (by rw [this]; exact hq2.2)
  · intro r hr hid hown
    have hf := find?_eq_some_of_unique (matchesService ⟨sid, some uid⟩) r servs hr
      ((hsq r).mpr ⟨hid, hown⟩) ?_
    · simp [getServiceById, hf]
    · refine le_trans (List.countP_mono_left ?_) hsu
      intro r2 _ hq2
      simp [(hsq r2).mp hq2]

theorem getById_notFound_indistinguishable_witness :
    getProductById [⟨1, 7, "n", "d", "c", "s", "p", "st", "po", [], []⟩] 1 9
      = Except.error Err.notFound ∧
    getProductById [⟨1, 7, "n", "d", "c", "s", "p", "st", "po", [], []⟩] 3 7
      = Except.error Err.notFound ∧
    getProductById [⟨1, 7, "n", "d", "c", "s", "p", "st", "po", [], []⟩] 1 7
      = Except.ok ⟨1, 7, "n", "d", "c", "s", "p", "st", "po", [], []⟩ ∧
    getServiceById [⟨2, 7, "sn", "sc", "l", "ds", "lo", "hi", "ss", "se", [], []⟩] 2 9
      = Except.error Err.notFound ∧
    getServiceById [⟨2, 7, "sn", "sc", "l", "ds", "lo", "hi", "ss", "se", [], []⟩] 2 7
      = Except.ok ⟨2, 7, "sn", "sc", "l", "ds", "lo", "hi", "ss", "se", [], []⟩ :=
  ⟨(getById_notFound_indistinguishable
      [⟨1, 7, "n", "d", "c", "s", "p", "st", "po", [], []⟩] [] 1 9 2 (by decide)
      (by decide)).2.2.1
      ⟨⟨1, 7, "n", "d", "c", "s", "p", "st", "po", [], []⟩, by simp, rfl, by decide⟩,
   (getById_notFound_indistinguishable
      [⟨1, 7, "n", "d", "c", "s", "p", "st", "po", [], []⟩] [] 3 7 2 (by decide)
      (by decide)).2.1 (by intro r hr; simp at hr; rw [hr]; decide),
   (getById_notFound_indistinguishable
      [⟨1, 7, "n", "d", "c", "s", "p", "st", "po", [], []⟩] [] 1 7 2 (by decide)
      (by decide)).2.2.2.1
      ⟨1, 7, "n", "d", "c", "s", "p", "st", "po", [], []⟩ (by simp) rfl rfl,
   (getById_notFound_indistinguishable []
      [⟨2, 7, "sn", "sc", "l", "ds", "lo", "hi", "ss", "se", [], []⟩] 1 9 2 (by decide)
      (by decide)).2.2.2.2.2.2.1
      ⟨⟨2, 7, "sn", "sc", "l", "ds", "lo", "hi", "ss", "se", [], []⟩, by simp, rfl,
        by decide⟩,
   (getById_notFound_indistinguishable []
      [⟨2, 7, "sn", "sc", "l", "ds", "lo", "hi", "ss", "se", [], []⟩] 1 7 2 (by decide)
      (by decide)).2.2.2.2.2.2.2
      ⟨2, 7, "sn", "sc", "l", "ds", "lo", "hi", "ss", "se", [], []⟩ (by simp) rfl rfl⟩

/-- C9: the own-profile lookup returns the requested user row exactly when the
requested id is the caller's stored id and that row carries the token's phone
number; an id mismatch, a phone mismatch, or an absent row all yield the same
forbidden reply. -/
theorem fetchOwnUserProfile_spec (users : List User) (rid : Nat) (p : String)
    (hu : users.countP (userByPhoneQ p) ≤ 1) :
    (∀ c ∈ users, c.phoneNumber = p →
      (rid = c.id → getUserById users rid p = Except.ok c) ∧
      (rid ≠ c.id → getUserById users rid p = Except.error Err.forbidden)) ∧
    ((∀ u ∈ users, ¬(u.id = rid ∧ u.phoneNumber = p)) →
      getUserById users rid p = Except.error Err.forbidden) := by
  constructor
  · intro c hc hcp
    constructor
    · intro hid
      have hq : (fun u : User => decide (u.id = rid ∧ u.phoneNumber = p)) c = true := by
        simp [hid.symm, hcp]
      have hle : users.countP (fun u : User => decide (u.id = rid ∧ u.phoneNumber = p))
          ≤ 1 := by
        refine le_trans (List.countP_mono_left ?_) hu
        intro u _ hqu
        simp at hqu
        simp [userByPhoneQ, hqu.2]
      have hf := find?_eq_some_of_unique _ c users hc hq hle
      unfold getUserById
      rw [hf]
    · intro hid
      have hnone : users.find?
          (fun u : User => decide (u.id = rid ∧ u.phoneNumber = p)) = none := by
        refine List.find?_eq_none.mpr (fun u hmem hqu => ?_)
        simp at hqu
        have huc : u = c := eq_of_mem_countP_le_one (userByPhoneQ p) users hu u c hmem hc
          (by simp [userByPhoneQ, hqu.2]) (by simp [userByPhoneQ, hcp])
        rw [huc] at hqu
        exact hid hqu.1.symm
      unfold getUserById
      rw [hnone]
  · intro h
    have hnone : users.find?
        (fun u : User => decide (u.id = rid ∧ u.phoneNumber = p)) = none := by
      refine List.find?_eq_none.mpr (fun u hmem hqu => ?_)
      simp at hqu
      exact h u hmem hqu
    unfold getUserById
    rw [hnone]

theorem fetchOwnUserProfile_spec_witness :
    getUserById [⟨3, "+15550003", "a", "b", "c", "d", Status.verified⟩] 3 "+15550003"
      = Except.ok ⟨3, "+15550003", "a", "b", "c", "d", Status.verified⟩ ∧
    getUserById [⟨3, "+15550003", "a", "b", "c", "d", Status.verified⟩] 4 "+15550003"
      = Except.error Err.forbidden ∧
    getUserById [⟨3, "+15550003", "a", "b", "c", "d", Status.verified⟩] 3 "+15550009"
      = Except.error Err.forbidden :=
  ⟨((fetchOwnUserProfile_spec [⟨3, "+15550003", "a", "b", "c", "d", Status.verified⟩]
      3 "+15550003" (by decide)).1
      ⟨3, "+15550003", "a", "b", "c", "d", Status.verified⟩ (by simp) rfl).1 rfl,
   ((fetchOwnUserProfile_spec [⟨3, "+15550003", "a", "b", "c", "d", Status.verified⟩]
      4 "+15550003" (by decide)).1
      ⟨3, "+15550003", "a", "b", "c", "d", Status.verified⟩ (by simp) rfl).2 (by decide),
   (fetchOwnUserProfile_spec [⟨3, "+15550003", "a", "b", "c", "d", Status.verified⟩]
      3 "+15550009" (by decide)).2
      (by intro u hu2; simp at hu2; rw [hu2]; decide)⟩

/-- Concrete product with id 7 owned by user 5, for counterexamples. -/
def productOwnedBy5 : Product :=
  ⟨7, 5, "n", "d", "c", "s", "p", "st", "po", [], []⟩

/-- Concrete product with id 7 owned by user 99, for counterexamples. -/
def productOwnedBy99 : Product :=
  ⟨7, 99, "n2", "d2", "c2", "s2", "p2", "st2", "po2", [], []⟩

/-- C2 counterexample: the update writes on both catalog collections carry no
owner predicate — their query is the record id alone, and the same update
write query matches records of two different owners; the product update write
applied to a store holding only a foreign-owned record still matches it. -/
theorem update_write_keyed_on_id_alone :
    (productUpdateWriteQuery 7).qOwner = none ∧
    (serviceUpdateWriteQuery 7).qOwner = none ∧
    matchesProduct (productUpdateWriteQuery 7) productOwnedBy5 = true ∧
    matchesProduct (productUpdateWriteQuery 7) productOwnedBy99 = true ∧
    productOwnedBy5.userId ≠ productOwnedBy99.userId ∧
    (updateOneProducts (productUpdateWriteQuery 7) productOwnedBy5
      [productOwnedBy99]).2.1 = 1 := by
  decide

/-- C2 amended: the conditional delete writes include the ownership predicate
directly in the write query (so the delete write can only match caller-owned
rows, and deleting a non-owned record fails with NotFound leaving the store
unchanged), but the conditional update writes are keyed on the record id
alone; for updates, ownership is enforced only by the separate preceding
owner-scoped read, which fails with NotFound and leaves the store unchanged
when the record is not owned by the caller. -/
theorem write_ownership_scoping (pid uid : Nat) :
    (∀ r : Product, matchesProduct (productDeleteWriteQuery pid uid) r = true →
      r.userId = uid ∧ r.id = pid) ∧
    (∀ r : Service, matchesService (serviceDeleteWriteQuery pid uid) r = true →
      r.userId = uid ∧ r.id = pid) ∧
    ((productUpdateWriteQuery pid).qOwner = none) ∧
    ((serviceUpdateWriteQuery pid).qOwner = none) ∧
    (∀ r : Product, matchesProduct (productUpdateWriteQuery pid) r = true ↔ r.id = pid) ∧
    (∀ users store p patch u, users.find? (verifiedUserByPhoneQ p) = some u →
      (∀ r ∈ store, r.id = pid → r.userId ≠ u.id) →
      putProduct users store p pid patch = (Except.error Err.notFound, store)) ∧
    (∀ users store p patch u, users.find? (verifiedUserByPhoneQ p) = some u →
      (∀ r ∈ store, r.id = pid → r.userId ≠ u.id) →
      putService users store p pid patch = (Except.error Err.notFound, store)) ∧
    (∀ users store p u, users.find? (verifiedUserByPhoneQ p) = some u →
      (∀ r ∈ store, r.id = pid → r.userId ≠ u.id) →
      deleteProduct users store p pid = (Except.error Err.notFound, store)) ∧
    (∀ users store p u, users.find? (verifiedUserByPhoneQ p) = some u →
      (∀ r ∈ store, r.id = pid → r.userId ≠ u.id) →
      deleteService users store p pid = (Except.error Err.notFound, store)) := by
  refine ⟨?_, ?_, rfl, rfl, ?_, ?_, ?_, ?_, ?_⟩
  · intro r h
    simp [matchesProduct, productDeleteWriteQuery] at h
    exact ⟨h.2, h.1⟩
  · intro r h
    simp [matchesService, serviceDeleteWriteQuery] at h
    exact ⟨h.2, h.1⟩
  · intro r
    simp [matchesProduct, productUpdateWriteQuery]
  · intro users store p patch u hu hown
    have hnone : store.find? (matchesProduct ⟨pid, some u.id⟩) = none := by
      refine List.find?_eq_none.mpr (fun r hr hq => ?_)
      simp [matchesProduct] at hq
      exact hown r hr hq.1 hq.2
    simp [putProduct, hu, hnone]
  · intro users store p patch u hu hown
    have hnone : store.find? (matchesService ⟨pid, some u.id⟩) = none := by
      refine List.find?_eq_none.mpr (fun r hr hq => ?_)
      simp [matchesService] at hq
      exact hown r hr hq.1 hq.2
    simp [putService, hu, hnone]
  · intro users store p u hu hown
    have hdel : deleteOneProducts (productDeleteWriteQuery pid u.id) store = (store, 0) := by
      refine deleteOneProducts_of_forall_false _ _ (fun r hr => ?_)
      simp [matchesProduct, productDeleteWriteQuery]
      intro hid
      exact hown r hr hid
    simp [deleteProduct, hu, hdel]
  · intro users store p u hu hown
    have hdel : deleteOneServices (serviceDeleteWriteQuery pid u.id) store = (store, 0) := by
      refine deleteOneServices_of_forall_false _ _ (fun r hr => ?_)
      simp [matchesService, serviceDeleteWriteQuery]
      intro hid
      exact hown r hr hid
    simp [deleteService, hu, hdel]

/-- Verified user used by the ownership-scoping witness. -/
def witnessVerifiedUser : User :=
  ⟨1, "+15550001", "alice", "biz", "Alice", "e", Status.verified⟩

/-- An all-absent product patch. -/
def emptyProductPatch : ProductPatch :=
  ⟨none, none, none, none, none, none, none, none, none⟩

theorem write_ownership_scoping_witness :
    putProduct [witnessVerifiedUser] [productOwnedBy99] "+15550001" 7 emptyProductPatch
      = (Except.error Err.notFound, [productOwnedBy99]) ∧
    deleteProduct [witnessVerifiedUser] [productOwnedBy99] "+15550001" 7
      = (Except.error Err.notFound, [productOwnedBy99]) ∧
    (matchesProduct (productDeleteWriteQuery 7 1) productOwnedBy99 = true →
      productOwnedBy99.userId = 1 ∧ productOwnedBy99.id = 7) :=
  ⟨(write_ownership_scoping 7 1).2.2.2.2.2.1 [witnessVerifiedUser] [productOwnedBy99]
      "+15550001" emptyProductPatch witnessVerifiedUser (by decide)
      (by intro r hr; simp at hr; rw [hr]; intro h; decide),
   (write_ownership_scoping 7 1).2.2.2.2.2.2.2.1 [witnessVerifiedUser] [productOwnedBy99]
      "+15550001" witnessVerifiedUser (by decide)
      (by intro r hr; simp at hr; rw [hr]; intro h; decide),
   (write_ownership_scoping 7 1).1 productOwnedBy99⟩

/-- Upload file with a content type that is neither image nor video. -/
def pdfUpload : UploadFile :=
  ⟨"doc.pdf", "application/pdf", [37, 80, 68, 70]⟩

/-- C3 counterexample: a file with an unrecognized declared content type is
silently dropped from both returned handle lists, but its bytes ARE written to
the blob store under a fresh handle, contradicting the claim that no bytes are
stored and no handle is created for it. -/
theorem storeBatch_writes_unrecognized_bytes :
    (storeBatch [] 0 [pdfUpload] 7).imageFileIds = [] ∧
    (storeBatch [] 0 [pdfUpload] 7).videoFileIds = [] ∧
    (storeBatch [] 0 [pdfUpload] 7).blobs
      = [⟨0, "doc.pdf", "application/pdf", 7, [37, 80, 68, 70]⟩] ∧
    (storeBatch [] 0 [pdfUpload] 7).blobs ≠ [] := by
  decide

/-- C3 amended: a file whose declared content type is neither an image type
nor a video type is silently dropped from both returned handle lists — its
fresh handle appears in neither — but its bytes are still written to the Blob
Store: the loop stores every file and only the handle-list membership is
conditioned on the declared type. -/
theorem storeBatch_unrecognized_dropped_but_stored
    (blobs : List StoredBlob) (nid : Nat) (f : UploadFile) (rest : List UploadFile)
    (owner : Nat)
    (h1 : strStartsWith f.mimetype "image/" = false)
    (h2 : strStartsWith f.mimetype "video/" = false) :
    storeBatch blobs nid (f :: rest) owner =
      storeBatch (blobs ++ [⟨nid, f.originalname, f.mimetype, owner, f.buffer⟩])
        (nid + 1) rest owner ∧
    (∃ tail, (storeBatch blobs nid (f :: rest) owner).blobs
      = blobs ++ ⟨nid, f.originalname, f.mimetype, owner, f.buffer⟩ :: tail) ∧
    nid ∉ (storeBatch blobs nid (f :: rest) owner).imageFileIds ∧
    nid ∉ (storeBatch blobs nid (f :: rest) owner).videoFileIds := by
  have hstep : storeBatch blobs nid (f :: rest) owner =
      storeBatch (blobs ++ [⟨nid, f.originalname, f.mimetype, owner, f.buffer⟩])
        (nid + 1) rest owner := by
    simp only [storeBatch, h1, h2, Bool.false_eq_true, if_false]
  refine ⟨hstep, ?_, ?_, ?_⟩
  · obtain ⟨t, ht⟩ := storeBatch_blobs_extend rest
      (blobs ++ [⟨nid, f.originalname, f.mimetype, owner, f.buffer⟩]) (nid + 1) owner
    refine ⟨t, ?_⟩
    rw [hstep, ht]
    simp
  · intro hmem
    rw [hstep] at hmem
    have := (storeBatch_handle_ids_ge rest
      (blobs ++ [⟨nid, f.originalname, f.mimetype, owner, f.buffer⟩]) (nid + 1) owner
      nid).1 hmem
    omega
  · intro hmem
    rw [hstep] at hmem
    have := (storeBatch_handle_ids_ge rest
      (blobs ++ [⟨nid, f.originalname, f.mimetype, owner, f.buffer⟩]) (nid + 1) owner
      nid).2 hmem
    omega

theorem storeBatch_unrecognized_dropped_but_stored_witness :
    (∃ tail, (storeBatch [] 3 [⟨"a.txt", "text/plain", [104, 105]⟩] 9).blobs
      = [] ++ (⟨3, "a.txt", "text/plain", 9, [104, 105]⟩ : StoredBlob) :: tail) ∧
    3 ∉ (storeBatch [] 3 [⟨"a.txt", "text/plain", [104, 105]⟩] 9).imageFileIds ∧
    3 ∉ (storeBatch [] 3 [⟨"a.txt", "text/plain", [104, 105]⟩] 9).videoFileIds :=
  (storeBatch_unrecognized_dropped_but_stored [] 3 ⟨"a.txt", "text/plain", [104, 105]⟩
    [] 9 (by decide) (by decide)).2

/-- C7: signup has exactly three outcomes keyed on the state of the phone
number: a verified row yields AlreadyVerified with no dispatch and no write; a
pending row re-dispatches the code and returns CodeResent with no write; an
absent row dispatches the code, upserts a pending row carrying the supplied
profile fields, and returns CodeSent. -/
theorem signup_three_outcomes
    (users : List User) (freshId : Nat) (p : String) (pf : ProfileFields)
    (hu : users.countP (userByPhoneQ p) ≤ 1) :
    (∀ u ∈ users, u.phoneNumber = p → u.status = Status.verified →
      signup users freshId p pf = ⟨Except.error Err.alreadyVerified, users, false⟩) ∧
    (∀ u ∈ users, u.phoneNumber = p → u.status = Status.pending →
      signup users freshId p pf = ⟨Except.ok SignupOutcome.codeResent, users, true⟩) ∧
    ((∀ u ∈ users, u.phoneNumber ≠ p) →
      signup users freshId p pf = ⟨Except.ok SignupOutcome.codeSent,
        users ++ [⟨freshId, p, pf.username, pf.businessName, pf.name, pf.email,
          Status.pending⟩], true⟩) := by
  refine ⟨?_, ?_, ?_⟩
  · intro u hmem hup hv
    have hf := find?_eq_some_of_unique (userByPhoneQ p) u users hmem
      (by simp [userByPhoneQ, hup]) hu
    simp [signup, hf, hv]
  · intro u hmem hup hpend
    have hf := find?_eq_some_of_unique (userByPhoneQ p) u users hmem
      (by simp [userByPhoneQ, hup]) hu
    simp [signup, hf, hpend]
  · intro h
    have hf : users.find? (userByPhoneQ p) = none := by
      refine List.find?_eq_none.mpr (fun u hmem hq => ?_)
      simp [userByPhoneQ] at hq
      exact h u hmem hq
    have hupd : updateOneUsers (userByPhoneQ p) (signupProfileSet p pf) users
        = (users, 0) := by
      refine updateOneUsers_of_forall_false _ _ _ (fun u hmem => ?_)
      simp [userByPhoneQ]
      exact h u hmem
    simp [signup, hf, upsertPendingUser, hupd]

theorem signup_three_outcomes_witness :
    signup [⟨1, "+15550004", "a", "b", "c", "d", Status.verified⟩] 9 "+15550004"
        ⟨"u", "bn", "n", "e"⟩
      = ⟨Except.error Err.alreadyVerified,
         [⟨1, "+15550004", "a", "b", "c", "d", Status.verified⟩], false⟩ ∧
    signup [⟨1, "+15550004", "a", "b", "c", "d", Status.pending⟩] 9 "+15550004"
        ⟨"u", "bn", "n", "e"⟩
      = ⟨Except.ok SignupOutcome.codeResent,
         [⟨1, "+15550004", "a", "b", "c", "d", Status.pending⟩], true⟩ ∧
    signup [] 9 "+15550004" ⟨"u", "bn", "n", "e"⟩
      = ⟨Except.ok SignupOutcome.codeSent,
         [⟨9, "+15550004", "u", "bn", "n", "e", Status.pending⟩], true⟩ :=
  ⟨(signup_three_outcomes [⟨1, "+15550004", "a", "b", "c", "d", Status.verified⟩]
      9 "+15550004" ⟨"u", "bn", "n", "e"⟩ (by decide)).1
      ⟨1, "+15550004", "a", "b", "c", "d", Status.verified⟩ (by simp) rfl rfl,
   (signup_three_outcomes [⟨1, "+15550004", "a", "b", "c", "d", Status.pending⟩]
      9 "+15550004" ⟨"u", "bn", "n", "e"⟩ (by decide)).2.1
      ⟨1, "+15550004", "a", "b", "c", "d", Status.pending⟩ (by simp) rfl rfl,
   (signup_three_outcomes [] 9 "+15550004" ⟨"u", "bn", "n", "e"⟩ (by decide)).2.2
      (by intro u hmem; cases hmem)⟩

/-- C1: on approved verdicts the pending-to-verified transition fires at most
once per phone number: after a successful confirmSignup the store holds no
pending row for that phone, so a second approved confirmSignup matches no row,
fails with NotPendingOrAlreadyVerified, and leaves the store unchanged; and a
verified row is never demoted by either store-writing operation (signup with
any arguments, confirmSignup with any verdict and phone). -/
theorem confirmSignup_fires_at_most_once
    (users : List User) (p : String)
    (hu : users.countP (userByPhoneQ p) ≤ 1)
    (hok : (confirmSignup "approved" users p).resp = Except.ok ()) :
    (confirmSignup "approved" (confirmSignup "approved" users p).users p).resp
      = Except.error Err.notPendingOrAlreadyVerified ∧
    (confirmSignup "approved" (confirmSignup "approved" users p).users p).users
      = (confirmSignup "approved" users p).users ∧
    (∀ u ∈ users, u.status = Status.verified →
      (∀ verdict q, u ∈ (confirmSignup verdict users q).users) ∧
      (∀ freshId q pf, u ∈ (signup users freshId q pf).users)) := by
  have hpreserve : ∀ u ∈ users, u.status = Status.verified →
      (∀ verdict q, u ∈ (confirmSignup verdict users q).users) ∧
      (∀ freshId q pf, u ∈ (signup users freshId q pf).users) := by
    intro u hmem hv
    constructor
    · intro verdict q
      by_cases hap : verdict = "approved"
      · subst hap
        have hqu : pendingUserByPhoneQ q u = false := by
          simp [pendingUserByPhoneQ, hv]
        have hmem2 := mem_updateOneUsers (pendingUserByPhoneQ q)
          (fun v => { v with status := Status.verified }) users u hmem hqu
        by_cases hm2 : (updateOneUsers (pendingUserByPhoneQ q)
            (fun v => { v with status := Status.verified }) users).2 = 0
        · simp only [confirmSignup, if_pos rfl, hm2, if_true]
          exact hmem2
        · simp only [confirmSignup, if_pos rfl]
          rw [if_neg hm2]
          exact hmem2
      · simp only [confirmSignup, if_neg hap]
        exact hmem
    · intro freshId q pf
      rcases hfind : users.find? (userByPhoneQ q) with _ | w
      · have hupd : updateOneUsers (userByPhoneQ q) (signupProfileSet q pf) users
            = (users, 0) := by
          refine updateOneUsers_of_forall_false _ _ _ (fun v hmemv => ?_)
          simpa using List.find?_eq_none.mp hfind v hmemv
        simp only [signup, hfind, upsertPendingUser, hupd]
        simp
        exact Or.inl hmem
      · by_cases hw : w.status = Status.verified
        · simp [signup, hfind, hw]
          exact hmem
        · simp [signup, hfind, hw]
          exact hmem
  by_cases hm : (updateOneUsers (pendingUserByPhoneQ p)
      (fun v => { v with status := Status.verified }) users).2 = 0
  · exfalso
    simp [confirmSignup, hm] at hok
  · obtain ⟨l1, x, l2, heq, hall, hqx, hres⟩ :=
      updateOneUsers_matched_split (pendingUserByPhoneQ p)
        (fun v => { v with status := Status.verified }) users hm
    have hxp : x.phoneNumber = p := by
      simp [pendingUserByPhoneQ] at hqx
      exact hqx.1
    have hfull : updateOneUsers (pendingUserByPhoneQ p)
        (fun v => { v with status := Status.verified }) users
        = (l1 ++ { x with status := Status.verified } :: l2, 1) := by
      rw [heq]
      exact updateOneUsers_append _ _ l1 x l2 hall hqx
    have hc1 : confirmSignup "approved" users p
        = ⟨Except.ok (), l1 ++ { x with status := Status.verified } :: l2⟩ := by
      simp [confirmSignup, hfull]
    have hcount : l2.countP (userByPhoneQ p) = 0 := by
      rw [heq] at hu
      rw [List.countP_append, List.countP_cons] at hu
      have hx1 : userByPhoneQ p x = true := by
        simp [userByPhoneQ, hxp]
      simp [hx1] at hu
      omega
    have hall2 : ∀ y ∈ l1 ++ { x with status := Status.verified } :: l2,
        pendingUserByPhoneQ p y = false := by
      intro y hy
      rcases List.mem_append.mp hy with hy1 | hy1
      · exact hall y hy1
      · rcases List.mem_cons.mp hy1 with hy2 | hy2
        · rw [hy2]
          simp [pendingUserByPhoneQ]
        · have hyq := List.countP_eq_zero.mp hcount y hy2
          simp [userByPhoneQ] at hyq
          simp [pendingUserByPhoneQ, hyq]
    have hupd2 : updateOneUsers (pendingUserByPhoneQ p)
        (fun v => { v with status := Status.verified })
        (l1 ++ { x with status := Status.verified } :: l2)
        = (l1 ++ { x with status := Status.verified } :: l2, 0) :=
      updateOneUsers_of_forall_false _ _ _ hall2
    have hc2 : confirmSignup "approved"
        (l1 ++ { x with status := Status.verified } :: l2) p
        = ⟨Except.error Err.notPendingOrAlreadyVerified,
           l1 ++ { x with status := Status.verified } :: l2⟩ := by
      simp [confirmSignup, hupd2]
    refine ⟨?_, ?_, hpreserve⟩
    · rw [hc1]
      simp only []
      rw [hc2]
    · rw [hc1]
      simp only []
      rw [hc2]

theorem confirmSignup_fires_at_most_once_witness :
    (confirmSignup "approved"
      (confirmSignup "approved"
        [⟨1, "+15550005", "a", "b", "c", "d", Status.pending⟩] "+15550005").users
      "+15550005").resp
      = Except.error Err.notPendingOrAlreadyVerified :=
  (confirmSignup_fires_at_most_once
    [⟨1, "+15550005", "a", "b", "c", "d", Status.pending⟩] "+15550005"
    (by decide) (by decide)).1

/-- C5: the product update applies patch semantics: every field present in the
request replaces the stored value and every absent field is preserved verbatim
in the stored record; an update whose merged document equals the stored one
(zero rows modified) is reported as UpdateFailed, while a changing update
succeeds and stores exactly the merged record, other records untouched. -/
theorem putProduct_patch_semantics
    (users : List User) (store : List Product) (p : String) (pid : Nat)
    (patch : ProductPatch) (u : User) (r : Product)
    (hu : users.find? (verifiedUserByPhoneQ p) = some u)
    (hr : r ∈ store) (hrid : r.id = pid) (hrown : r.userId = u.id)
    (hidu : store.countP (fun s => decide (s.id = pid)) ≤ 1) :
    ((patch.productName = none →
        (mergeProduct r patch).productName = r.productName) ∧
     (∀ v, patch.productName = some v → (mergeProduct r patch).productName = v) ∧
     (patch.productDescription = none →
        (mergeProduct r patch).productDescription = r.productDescription) ∧
     (∀ v, patch.productDescription = some v →
        (mergeProduct r patch).productDescription = v) ∧
     (patch.productCategory = none →
        (mergeProduct r patch).productCategory = r.productCategory) ∧
     (∀ v, patch.productCategory = some v →
        (mergeProduct r patch).productCategory = v) ∧
     (patch.productSubcategory = none →
        (mergeProduct r patch).productSubcategory = r.productSubcategory) ∧
     (∀ v, patch.productSubcategory = some v →
        (mergeProduct r patch).productSubcategory = v) ∧
     (patch.price = none → (mergeProduct r patch).price = r.price) ∧
     (∀ v, patch.price = some v → (mergeProduct r patch).price = v) ∧
     (patch.stockAvailability = none →
        (mergeProduct r patch).stockAvailability = r.stockAvailability) ∧
     (∀ v, patch.stockAvailability = some v →
        (mergeProduct r patch).stockAvailability = v) ∧
     (patch.productPolicies = none →
        (mergeProduct r patch).productPolicies = r.productPolicies) ∧
     (∀ v, patch.productPolicies = some v →
        (mergeProduct r patch).productPolicies = v) ∧
     (patch.images = none → (mergeProduct r patch).images = r.images) ∧
     (∀ v, patch.images = some v → (mergeProduct r patch).images = v) ∧
     (patch.videos = none → (mergeProduct r patch).videos = r.videos) ∧
     (∀ v, patch.videos = some v → (mergeProduct r patch).videos = v) ∧
     (mergeProduct r patch).id = r.id ∧
     (mergeProduct r patch).userId = r.userId) ∧
    (mergeProduct r patch = r →
      putProduct users store p pid patch = (Except.error Err.updateFailed, store)) ∧
    (mergeProduct r patch ≠ r →
      (putProduct users store p pid patch).1 = Except.ok () ∧
      ∃ l1 l2, store = l1 ++ r :: l2 ∧
        (putProduct users store p pid patch).2 = l1 ++ mergeProduct r patch :: l2) := by
  have hmerge : (patch.productName = none →
        (mergeProduct r patch).productName = r.productName) ∧
      (∀ v, patch.productName = some v → (mergeProduct r patch).productName = v) ∧
      (patch.productDescription = none →
        (mergeProduct r patch).productDescription = r.productDescription) ∧
      (∀ v, patch.productDescription = some v →
        (mergeProduct r patch).productDescription = v) ∧
      (patch.productCategory = none →
        (mergeProduct r patch).productCategory = r.productCategory) ∧
      (∀ v, patch.productCategory = some v →
        (mergeProduct r patch).productCategory = v) ∧
      (patch.productSubcategory = none →
        (mergeProduct r patch).productSubcategory = r.productSubcategory) ∧
      (∀ v, patch.productSubcategory = some v →
        (mergeProduct r patch).productSubcategory = v) ∧
      (patch.price = none → (mergeProduct r patch).price = r.price) ∧
      (∀ v, patch.price = some v → (mergeProduct r patch).price = v) ∧
      (patch.stockAvailability = none →
        (mergeProduct r patch).stockAvailability = r.stockAvailability) ∧
      (∀ v, patch.stockAvailability = some v →
        (mergeProduct r patch).stockAvailability = v) ∧
      (patch.productPolicies = none →
        (mergeProduct r patch).productPolicies = r.productPolicies) ∧
      (∀ v, patch.productPolicies = some v →
        (mergeProduct r patch).productPolicies = v) ∧
      (patch.images = none → (mergeProduct r patch).images = r.images) ∧
      (∀ v, patch.images = some v → (mergeProduct r patch).images = v) ∧
      (patch.videos = none → (mergeProduct r patch).videos = r.videos) ∧
      (∀ v, patch.videos = some v → (mergeProduct r patch).videos = v) ∧
      (mergeProduct r patch).id = r.id ∧
      (mergeProduct r patch).userId = r.userId := by
    refine ⟨?_, ?_, ?_, ?_, ?_, ?_, ?_, ?_, ?_, ?_, ?_, ?_, ?_, ?_, ?_, ?_, ?_, ?_,
      rfl, rfl⟩ <;>
      first
        | (intro h; simp [mergeProduct, h])
        | (intro v h; simp [mergeProduct, h])
  have hq : matchesProduct ⟨pid, some u.id⟩ r = true := by
    simp [matchesProduct, hrid, hrown]
  have hfr : store.find? (matchesProduct ⟨pid, some u.id⟩) = some r := by
    refine find?_eq_some_of_unique _ r store hr hq ?_
    refine le_trans (List.countP_mono_left ?_) hidu
    intro s _ hs
    simp [matchesProduct] at hs
    simp [hs.1]
  have hfu : store.find? (matchesProduct ⟨pid, none⟩) = some r := by
    refine find?_eq_some_of_unique _ r store hr (by simp [matchesProduct, hrid]) ?_
    refine le_trans (List.countP_mono_left ?_) hidu
    intro s _ hs
    simp [matchesProduct] at hs
    simp [hs]
  obtain ⟨l1, l2, heq, hall⟩ := find?_split _ store r hfu
  have hfull : updateOneProducts (productUpdateWriteQuery pid) (mergeProduct r patch) store
      = (l1 ++ mergeProduct r patch :: l2, 1,
         if mergeProduct r patch = r then 0 else 1) := by
    rw [heq]
    exact updateOneProducts_append ⟨pid, none⟩ (mergeProduct r patch) l1 r l2 hall
      (by simp [matchesProduct, hrid])
  refine ⟨hmerge, ?_, ?_⟩
  · intro hmr
    have hmod : (updateOneProducts (productUpdateWriteQuery pid)
        (mergeProduct r patch) store).2.2 = 0 := by
      rw [hfull]
      simp [hmr]
    have hstore : l1 ++ mergeProduct r patch :: l2 = store := by
      rw [hmr, heq]
    simp only [putProduct, hu, hfr]
    rw [hfull]
    simp [hmr, hstore]
    rw [← hstore, hmr]
  · intro hmr
    have hmod : (if mergeProduct r patch = r then (0 : Nat) else 1) = 1 := by
      simp [hmr]
    constructor
    · simp only [putProduct, hu, hfr]
      rw [hfull]
      simp [hmr]
    · refine ⟨l1, l2, heq, ?_⟩
      simp only [putProduct, hu, hfr]
      rw [hfull]
      simp [hmr]

/-- Verified owner used by the patch-semantics witness. -/
def patchSemUser : User :=
  ⟨2, "+15550006", "a", "b", "c", "d", Status.verified⟩

/-- Product owned by `patchSemUser`, used by the patch-semantics witness. -/
def patchSemProduct : Product :=
  ⟨4, 2, "pn", "pd", "pc", "ps", "pr", "sa", "pp", [1], [2]⟩

/-- Patch supplying one field with its existing value: a no-op update. -/
def identityPatch : ProductPatch :=
  ⟨some "pn", none, none, none, none, none, none, none, none⟩

/-- Patch renaming the product and leaving every other field absent. -/
def renamePatch : ProductPatch :=
  ⟨some "newName", none, none, none, none, none, none, none, none⟩

theorem putProduct_patch_semantics_witness :
    putProduct [patchSemUser] [patchSemProduct] "+15550006" 4 identityPatch
      = (Except.error Err.updateFailed, [patchSemProduct]) ∧
    (putProduct [patchSemUser] [patchSemProduct] "+15550006" 4 renamePatch).1
      = Except.ok () ∧
    (putProduct [patchSemUser] [patchSemProduct] "+15550006" 4 renamePatch).2
      = [⟨4, 2, "newName", "pd", "pc", "ps", "pr", "sa", "pp", [1], [2]⟩] :=
  ⟨(putProduct_patch_semantics [patchSemUser] [patchSemProduct] "+15550006" 4
      identityPatch patchSemUser patchSemProduct (by decide) (by simp) rfl rfl
      (by decide)).2.1 (by decide),
   ((putProduct_patch_semantics [patchSemUser] [patchSemProduct] "+15550006" 4
      renamePatch patchSemUser patchSemProduct (by decide) (by simp) rfl rfl
      (by decide)).2.2 (by decide)).1,
   by decide⟩

end EvoVendors
